import Mathlib

/-!
Shallow embedding of the PyLav node-pool and load-balancing subsystem:
`pylav/node.py` (Penalty, Stats, Node), `pylav/client.py` (Client) and
`pylav/player_manager.py` (PlayerManager).

Numeric values that Python stores in floats are embedded in `ℚ`; the one
transcendental operation, Python's float exponentiation `b ** e`, is
abstracted as an explicit parameter `fpow : ℚ → ℚ → ℚ`, so every theorem
quantifying over `fpow` holds for any interpretation of floating-point
power. Stateful methods are embedded as functions from explicit state to
new state plus a result; `raise` is an `Except.error`; side effects
(voice connect, event dispatch, websocket sends) are reified in an
`Effect` list.
-/

set_option autoImplicit false

namespace PyLav

/-- Python exception classes raised on the embedded code paths.
`nodeException` embeds `NodeException` (raised by `Client.get_tracks`,
`Client.decode_track`, `Client.decode_tracks`); `noNodeAvailable` embeds
`NoNodeAvailable` (raised by `PlayerManager.create`). `pylav/exceptions.py`
is not under src/; the spec's error taxonomy names the empty-pool failure
condition `NoNodeAvailable`. `unauthorized` embeds `Unauthorized`;
`indexError` and `attributeError` embed the built-in Python exceptions. -/
inductive PyErr
  | nodeException (msg : String)
  | noNodeAvailable (msg : String)
  | unauthorized
  | indexError
  | attributeError
deriving Repr, DecidableEq

/-- The fields of `pylav.node.Stats` (a parsed stats report); frame
counters default to -1 when the report carries no `frameStats` block. -/
structure StatsSnapshot where
  uptime : Int
  players : Int
  playing_players : Int
  memory_free : Int
  memory_used : Int
  memory_allocated : Int
  memory_reservable : Int
  cpu_cores : Int
  system_load : ℚ
  lavalink_load : ℚ
  frames_sent : Int
  frames_nulled : Int
  frames_deficit : Int
deriving Repr, DecidableEq

/-- The fields of `pylav.node.Penalty`. -/
structure Penalty where
  player_penalty : ℚ
  cpu_penalty : ℚ
  null_frame_penalty : ℚ
  deficit_frame_penalty : ℚ
  total : ℚ
deriving Repr, DecidableEq

/-- `Penalty.__init__(self, stats)` from `pylav/node.py`. `fpow b e` stands
for Python's float `b ** e`. -/
def Penalty.ofStats (fpow : ℚ → ℚ → ℚ) (stats : StatsSnapshot) : Penalty :=
  let player_penalty : ℚ := (stats.playing_players : ℚ)
  let cpu_penalty : ℚ := fpow 1.05 (100 * stats.system_load) * 10 - 10
  let null_frame_penalty : ℚ :=
    if stats.frames_nulled ≠ -1 then
      (fpow 1.03 (500 * ((stats.frames_nulled : ℚ) / 3000)) * 300 - 300) * 2
    else 0
  let deficit_frame_penalty : ℚ :=
    if stats.frames_deficit ≠ -1 then
      fpow 1.03 (500 * ((stats.frames_deficit : ℚ) / 3000)) * 600 - 600
    else 0
  { player_penalty := player_penalty
    cpu_penalty := cpu_penalty
    null_frame_penalty := null_frame_penalty
    deficit_frame_penalty := deficit_frame_penalty
    total := player_penalty + cpu_penalty + null_frame_penalty + deficit_frame_penalty }

/-- The optional `frameStats` sub-dict of a stats report; each key may be
absent (`dict.get` with default -1 in the source). -/
structure FrameStatsData where
  sent : Option Int
  nulled : Option Int
  deficit : Option Int
deriving Repr, DecidableEq

/-- The raw `data` dict consumed by `Stats.__init__`; mandatory keys are
plain fields, the optional `frameStats` block is an `Option`. -/
structure StatsData where
  uptime : Int
  players : Int
  playingPlayers : Int
  memFree : Int
  memUsed : Int
  memAllocated : Int
  memReservable : Int
  cpuCores : Int
  systemLoad : ℚ
  lavalinkLoad : ℚ
  frameStats : Option FrameStatsData
deriving Repr, DecidableEq

/-- `Stats.__init__(self, node, data)` from `pylav/node.py`:
`frame_stats = data.get("frameStats", {})` followed by
`frame_stats.get(key, -1)` for each frame counter. -/
def Stats.ofData (d : StatsData) : StatsSnapshot :=
  let frame_stats := d.frameStats.getD ⟨none, none, none⟩
  { uptime := d.uptime
    players := d.players
    playing_players := d.playingPlayers
    memory_free := d.memFree
    memory_used := d.memUsed
    memory_allocated := d.memAllocated
    memory_reservable := d.memReservable
    cpu_cores := d.cpuCores
    system_load := d.systemLoad
    lavalink_load := d.lavalinkLoad
    frames_sent := frame_stats.sent.getD (-1)
    frames_nulled := frame_stats.nulled.getD (-1)
    frames_deficit := frame_stats.deficit.getD (-1) }

/-- The runtime state of `pylav.node.Node` that its `penalty` property
reads: `available` is `self._ws.connected`, `stats` is `self._stats`
(`None` until the first stats report). -/
structure NodeSt where
  available : Bool
  stats : Option StatsSnapshot
deriving Repr, DecidableEq

/-- The literal `9e30` returned by `Node.penalty`. -/
def sentinelPenalty : ℚ := 9 * 10 ^ 30

/-- `Node.penalty` property from `pylav/node.py`:
`if not self.available or not self.stats: return 9e30` and otherwise
`return self.stats.penalty.total` (the `Stats` object stores the penalty
computed at construction, embedded here by recomputing it). -/
def NodeSt.penalty (fpow : ℚ → ℚ → ℚ) (n : NodeSt) : ℚ :=
  if n.available = false ∨ n.stats = none then sentinelPenalty
  else
    match n.stats with
    | some s => (Penalty.ofStats fpow s).total
    | none => sentinelPenalty

/-- A node as seen by the player manager and the client's pools: its name
and whether its websocket is connected. -/
structure NodeRef where
  name : String
  available : Bool
deriving Repr, DecidableEq

/-- Reified side effects of player-manager operations. -/
inductive Effect
  | voiceConnect (guild : Nat)
  | moveTo (guild : Nat) (channel : Nat)
  | playerConnectedEvent (guild : Nat)
  | sendDestroy (guild : Nat)
  | disconnect (guild : Nat)
deriving Repr, DecidableEq

/-- The per-guild `Player` state that `PlayerManager.create` / `destroy`
touch. `id` models Python object identity; `node` is the bound node
reference, nullable. -/
structure PlayerSt where
  id : Nat
  guild_id : Nat
  channel_id : Nat
  node : Option NodeRef
deriving Repr, DecidableEq

/-- `self.players` of `PlayerManager`: a dict keyed by guild id, embedded
as an association list with unique keys. -/
def Registry := List (Nat × PlayerSt)

/-- `self.players.get(guild_id)`. -/
def Registry.lookup (ps : Registry) (g : Nat) : Option PlayerSt :=
  (List.find? (fun x => x.1 = g) ps).map (fun x => x.2)

/-- `self.players.pop(guild_id)`'s effect on the dict (keys are unique, so
filtering the key out equals removing the popped entry). -/
def Registry.remove (ps : Registry) (g : Nat) : Registry :=
  List.filter (fun x => ¬ x.1 = g) ps

/-- In-place mutation of the player object stored for guild `g` (Python
mutates the shared object; the dict keeps pointing at it). -/
def Registry.update (ps : Registry) (g : Nat) (p : PlayerSt) : Registry :=
  List.map (fun x => if x.1 = g then (g, p) else x) ps

/-- Modelled from the spec: `Player.move_to` (`pylav/player.py` is not
under src/). Per spec section 4.4, a create call whose requested channel
differs from the existing player's moves that player to the new channel
and returns it unchanged otherwise; the move rebinds the player's channel
and constructs no new player. -/
def PlayerSt.moveTo (p : PlayerSt) (channel : Nat) : PlayerSt :=
  { p with channel_id := channel }

/-- `PlayerManager.create` from `pylav/player_manager.py`. `guild` and
`channel` are `channel.guild.id` and `channel.id`; `bestNode` is the value
of `node or self.client.node_manager.find_best_node(region)` (the node
manager is not under src/, so the resolved node is a parameter); `freshId`
is the identity of the player object `channel.connect` would construct.
Returns the player returned to the caller, the new registry, and the
reified side effects in program order. -/
def PlayerManager.create (players : Registry) (guild channel : Nat)
    (bestNode : Option NodeRef) (freshId : Nat) :
    Except PyErr (PlayerSt × Registry × List Effect) :=
  match players.lookup guild with
  | some p =>
      if channel ≠ p.channel_id then
        let moved := p.moveTo channel
        Except.ok (moved, players.update guild moved, [Effect.moveTo guild channel])
      else
        Except.ok (p, players, [])
  | none =>
      match bestNode with
      | none => Except.error (PyErr.noNodeAvailable "No available nodes!")
      | some n =>
          let player : PlayerSt :=
            { id := freshId, guild_id := guild, channel_id := channel, node := some n }
          Except.ok (player, (guild, player) :: players,
            [Effect.voiceConnect guild, Effect.moveTo guild channel,
             Effect.playerConnectedEvent guild])

/-- `PlayerManager.destroy` from `pylav/player_manager.py`, as a function
from the registry to the registry left behind plus the outcome: the player
is popped first; if `player.node and player.node.available` a destroy op is
sent and the player disconnected; the final log line evaluates
`player.node.name`, which raises `AttributeError` when `player.node` is
`None` — after the pop already happened. -/
def PlayerManager.destroy (players : Registry) (guild : Nat) :
    Registry × Except PyErr (List Effect) :=
  match players.lookup guild with
  | none => (players, Except.ok [])
  | some p =>
      let popped := players.remove guild
      match p.node with
      | some n =>
          if n.available then
            (popped, Except.ok [Effect.sendDestroy guild, Effect.disconnect guild])
          else
            (popped, Except.ok [])
      | none => (popped, Except.error PyErr.attributeError)

/-- One invocation of `Client.get_tracks`'s node-selection prologue:
whether `search_only_nodes=True` was passed, and the two pools the node
manager reports at that moment (the node manager itself is not under
src/, so the pools are inputs). -/
structure GetTracksCall where
  searchOnly : Bool
  searchOnlyNodes : List NodeRef
  availableNodes : List NodeRef
deriving Repr, DecidableEq

/-- The pool-selection block of `Client.get_tracks` (`pylav/client.py`):
given the call and the current `_warned_about_no_search_nodes` flag,
returns the chosen pool, the new flag, and whether the "no search only
nodes" warning was emitted by this call. -/
def Client.choosePool (c : GetTracksCall) (warned : Bool) :
    List NodeRef × Bool × Bool :=
  if c.searchOnly then
    if c.searchOnlyNodes.isEmpty then
      (c.availableNodes, true, !warned)
    else
      (c.searchOnlyNodes, warned, false)
  else
    (c.availableNodes, warned, false)

/-- `Client.get_tracks` up to the node choice: after pool selection,
`if not nodes: raise NodeException("No available nodes!")`; otherwise the
pool from which `random.choice` draws is returned. -/
def Client.getTracksSelect (c : GetTracksCall) (warned : Bool) :
    Except PyErr (List NodeRef) × Bool × Bool :=
  let r := Client.choosePool c warned
  if r.1.isEmpty then
    (Except.error (PyErr.nodeException "No available nodes!"), r.2.1, r.2.2)
  else
    (Except.ok r.1, r.2.1, r.2.2)

/-- The guard of `Client.decode_track`: raises when
`self.node_manager.available_nodes` is falsy, else the pool for
`random.choice`. -/
def Client.decodeTrackSelect (availableNodes : List NodeRef) :
    Except PyErr (List NodeRef) :=
  if availableNodes.isEmpty then
    Except.error (PyErr.nodeException "No available nodes!")
  else
    Except.ok availableNodes

/-- The guard of `Client.decode_tracks`, identical in shape to
`decode_track`'s. -/
def Client.decodeTracksSelect (availableNodes : List NodeRef) :
    Except PyErr (List NodeRef) :=
  if availableNodes.isEmpty then
    Except.error (PyErr.nodeException "No available nodes!")
  else
    Except.ok availableNodes

/-- `Client.__init__` sets `self._warned_about_no_search_nodes = False`. -/
def initialWarnedFlag : Bool := false

/-- A sequence of `get_tracks` calls threading the warned flag through the
client state; returns how many of them emitted the warning, and the final
flag. -/
def Client.runGetTracksCalls : List GetTracksCall → Bool → Nat × Bool
  | [], warned => (0, warned)
  | c :: rest, warned =>
      let r := Client.getTracksSelect c warned
      let t := Client.runGetTracksCalls rest r.2.1
      ((if r.2.2 then 1 else 0) + t.1, t.2)

/-- A domain event as the dispatcher sees it: its concrete kind
(`type(event).__name__`). -/
structure Ev where
  kind : String
deriving Repr, DecidableEq

/-- An event hook: an async callable that either completes or raises (the
error carries the exception's description). -/
def Hook := Ev → Except String Unit

/-- `_hook_wrapper` from `Client._dispatch_event`: runs the hook, catches
any exception and logs it; `some msg` is the logged failure, `none`
success. Total — it never re-raises. -/
def hookWrapper (hook : Hook) (e : Ev) : Option String :=
  match hook e with
  | Except.ok _ => none
  | Except.error msg => some msg

/-- `Client._dispatch_event` from `pylav/client.py`: gathers the hooks
registered under `"Generic"` and under the event's concrete kind, returns
early when both are empty, and otherwise awaits a wrapped task per hook.
The result is the settled outcome of every hook invocation; an
`Except.error` result would model an exception escaping to the caller. -/
def Client.dispatchEvent (hooks : String → List Hook) (e : Ev) :
    Except String (List (Option String)) :=
  let genericHooks := hooks "Generic"
  let targetedHooks := hooks e.kind
  if genericHooks.isEmpty && targetedHooks.isEmpty then
    Except.ok []
  else
    List.foldr
      (fun h acc => do
        let rest ← acc
        pure (hookWrapper h e :: rest))
      (Except.ok []) (genericHooks ++ targetedHooks)

/-- The body of the `/loadtracks` response relevant to `Node.get_tracks`:
the `"tracks"` key (possibly absent) and the remaining JSON fields. -/
structure LoadTracksBody where
  tracks : Option (List String)
  rest : String
deriving Repr, DecidableEq

/-- What `Node.get_tracks` hands back on success. -/
inductive GetTracksRet
  | result (body : LoadTracksBody)
  | firstTrack (t : String)
  | emptyList
deriving Repr, DecidableEq

/-- The response handling of `Node.get_tracks` (`pylav/node.py`): on 200,
either the whole parsed result or, with `first=True`, the unguarded
`result.get("tracks", [])[0]` (IndexError on an empty list); 401/403
raise `Unauthorized`; anything else returns `[]`. -/
def Node.getTracksResp (status : Nat) (body : LoadTracksBody) (first : Bool) :
    Except PyErr GetTracksRet :=
  if status = 200 then
    if first then
      match body.tracks.getD [] with
      | [] => Except.error PyErr.indexError
      | t :: _ => Except.ok (GetTracksRet.firstTrack t)
    else
      Except.ok (GetTracksRet.result body)
  else if status = 401 ∨ status = 403 then
    Except.error PyErr.unauthorized
  else
    Except.ok GetTracksRet.emptyList

/-- The response handling of `Node.decode_track`: 200 returns the parsed
body, 401/403 raise `Unauthorized`, anything else returns `None`. -/
def Node.decodeTrackResp (status : Nat) (body : String) :
    Except PyErr (Option String) :=
  if status = 200 then
    Except.ok (some body)
  else if status = 401 ∨ status = 403 then
    Except.error PyErr.unauthorized
  else
    Except.ok none

/-- The response handling of `Node.decode_tracks`: 200 returns the parsed
list, 401/403 raise `Unauthorized`, anything else returns `[]`. -/
def Node.decodeTracksResp (status : Nat) (body : List String) :
    Except PyErr (List String) :=
  if status = 200 then
    Except.ok body
  else if status = 401 ∨ status = 403 then
    Except.error PyErr.unauthorized
  else
    Except.ok []

/-- The response handling of `Node.routeplanner_status`: 200 returns the
parsed body, 401/403 raise `Unauthorized`, anything else returns `None`. -/
def Node.routeplannerStatusResp (status : Nat) (body : String) :
    Except PyErr (Option String) :=
  if status = 200 then
    Except.ok (some body)
  else if status = 401 ∨ status = 403 then
    Except.error PyErr.unauthorized
  else
    Except.ok none

/-- Events the websocket session lifecycle emits. -/
inductive SessionEvent
  | nodeConnected
  | nodeDisconnected
deriving Repr, DecidableEq

/-- Terminal outcome of the reconnect loop. -/
inductive SessionState
  | connected
  | disconnectedTerminal
deriving Repr, DecidableEq

/-- Modelled from the spec: the websocket reconnect loop
(`pylav/websocket.py` is not under src/; `Node.__init__` only forwards
`reconnect_attempts` to it). Spec section 4.2: backoff retry of the
connect step, bounded by the `reconnect_attempts` cap; exhausting the
attempts transitions to a terminal Disconnected state and emits a
node-failure (NodeDisconnected) event. `connectOk i` tells whether the
i-th connect attempt (0-based) succeeds; `tries` counts attempts already
made and `remaining` the attempts the cap still allows. Returns the total
number of attempts made, the final state, and the emitted events. -/
def reconnectRun (connectOk : Nat → Bool) :
    Nat → Nat → Nat × SessionState × List SessionEvent
  | tries, 0 =>
      (tries, SessionState.disconnectedTerminal, [SessionEvent.nodeDisconnected])
  | tries, remaining + 1 =>
      if connectOk tries then
        (tries + 1, SessionState.connected, [SessionEvent.nodeConnected])
      else
        reconnectRun connectOk (tries + 1) remaining

/-- The default `reconnect_attempts: int = 3` of `Node.__init__`. -/
def defaultReconnectAttempts : Nat := 3

end PyLav

namespace PyLav

/-- Claim C1: for every StatsSnapshot whose frames_nulled and frames_deficit
are both -1, the computed penalty has null_frame_penalty = 0 and
deficit_frame_penalty = 0 and total = playing_players + cpu_penalty with
cpu_penalty = 1.05 ^ (100 * system_load) * 10 - 10 (for any interpretation
`fpow` of float power); and a stats report with no frameStats block
defaults both counters to -1. -/
theorem C1_penalty_total_frames_unreported (fpow : ℚ → ℚ → ℚ)
    (stats : StatsSnapshot)
    (hn : stats.frames_nulled = -1) (hd : stats.frames_deficit = -1) :
    (Penalty.ofStats fpow stats).null_frame_penalty = 0 ∧
    (Penalty.ofStats fpow stats).deficit_frame_penalty = 0 ∧
    (Penalty.ofStats fpow stats).total =
      (stats.playing_players : ℚ) + (Penalty.ofStats fpow stats).cpu_penalty ∧
    (Penalty.ofStats fpow stats).cpu_penalty =
      fpow 1.05 (100 * stats.system_load) * 10 - 10 ∧
    ∀ d : StatsData, d.frameStats = none →
      (Stats.ofData d).frames_nulled = -1 ∧ (Stats.ofData d).frames_deficit = -1 := by
  refine ⟨?_, ?_, ?_, ?_, ?_⟩
  · simp [Penalty.ofStats, hn]
  · simp [Penalty.ofStats, hd]
  · simp [Penalty.ofStats, hn, hd]
  · simp [Penalty.ofStats]
  · intro d hfs
    simp [Stats.ofData, hfs]

/-- Witness for C1 at a concrete snapshot with both frame counters -1. -/
theorem C1_witness :
    (Penalty.ofStats (fun _ _ => 0) ⟨0, 0, 4, 0, 0, 0, 0, 1, 0, 0, -1, -1, -1⟩).null_frame_penalty = 0 ∧
    (Penalty.ofStats (fun _ _ => 0) ⟨0, 0, 4, 0, 0, 0, 0, 1, 0, 0, -1, -1, -1⟩).deficit_frame_penalty = 0 ∧
    (Penalty.ofStats (fun _ _ => 0) ⟨0, 0, 4, 0, 0, 0, 0, 1, 0, 0, -1, -1, -1⟩).total =
      ((4 : Int) : ℚ) + (Penalty.ofStats (fun _ _ => 0) ⟨0, 0, 4, 0, 0, 0, 0, 1, 0, 0, -1, -1, -1⟩).cpu_penalty ∧
    (Penalty.ofStats (fun _ _ => 0) ⟨0, 0, 4, 0, 0, 0, 0, 1, 0, 0, -1, -1, -1⟩).cpu_penalty =
      (fun _ _ => (0 : ℚ)) 1.05 (100 * 0) * 10 - 10 ∧
    ∀ d : StatsData, d.frameStats = none →
      (Stats.ofData d).frames_nulled = -1 ∧ (Stats.ofData d).frames_deficit = -1 :=
  C1_penalty_total_frames_unreported (fun _ _ => 0)
    ⟨0, 0, 4, 0, 0, 0, 0, 1, 0, 0, -1, -1, -1⟩ rfl rfl

/-- Claim C2: Node.penalty returns the sentinel 9e30 when the node is
unavailable or has no stats (without raising: it is a total function),
and stats.penalty.total when the node is available with stats. -/
theorem C2_node_penalty_sentinel (fpow : ℚ → ℚ → ℚ) (n : NodeSt) :
    ((n.available = false ∨ n.stats = none) →
      n.penalty fpow = sentinelPenalty ∧ sentinelPenalty = 9 * 10 ^ 30) ∧
    (∀ s : StatsSnapshot, n.available = true → n.stats = some s →
      n.penalty fpow = (Penalty.ofStats fpow s).total) := by
  constructor
  · intro h
    refine ⟨?_, rfl⟩
    unfold NodeSt.penalty
    rw [if_pos h]
  · intro s ha hs
    unfold NodeSt.penalty
    rw [if_neg, hs]
    rw [ha, hs]
    simp

/-- Witness for C2: a disconnected stats-less node reports 9e30; a
connected node with stats reports its penalty total. -/
theorem C2_witness :
    NodeSt.penalty (fun _ _ => 0) ⟨false, none⟩ = sentinelPenalty ∧
    NodeSt.penalty (fun _ _ => 0)
        ⟨true, some ⟨0, 0, 4, 0, 0, 0, 0, 1, 0, 0, -1, -1, -1⟩⟩ =
      (Penalty.ofStats (fun _ _ => 0) ⟨0, 0, 4, 0, 0, 0, 0, 1, 0, 0, -1, -1, -1⟩).total :=
  ⟨((C2_node_penalty_sentinel (fun _ _ => 0) ⟨false, none⟩).1 (Or.inl rfl)).1,
   (C2_node_penalty_sentinel (fun _ _ => 0)
      ⟨true, some ⟨0, 0, 4, 0, 0, 0, 0, 1, 0, 0, -1, -1, -1⟩⟩).2
     ⟨0, 0, 4, 0, 0, 0, 0, 1, 0, 0, -1, -1, -1⟩ rfl rfl⟩

/-- Claim C3: Client.get_tracks raises the "No available nodes!" error when
the chosen pool is empty (general pool empty; or with search_only_nodes,
both the search-only pool and the fallback pool empty), and
Client.decode_track / Client.decode_tracks raise it when no node is
available. -/
theorem C3_empty_pool_raises (c : GetTracksCall) (warned : Bool) :
    (c.searchOnly = false → c.availableNodes = [] →
      (Client.getTracksSelect c warned).1 =
        Except.error (PyErr.nodeException "No available nodes!")) ∧
    (c.searchOnly = true → c.searchOnlyNodes = [] → c.availableNodes = [] →
      (Client.getTracksSelect c warned).1 =
        Except.error (PyErr.nodeException "No available nodes!")) ∧
    (∀ avail : List NodeRef, avail = [] →
      Client.decodeTrackSelect avail =
          Except.error (PyErr.nodeException "No available nodes!") ∧
      Client.decodeTracksSelect avail =
          Except.error (PyErr.nodeException "No available nodes!")) := by
  refine ⟨?_, ?_, ?_⟩
  · intro hso hav
    simp [Client.getTracksSelect, Client.choosePool, hso, hav]
  · intro hso hsearch hav
    simp [Client.getTracksSelect, Client.choosePool, hso, hsearch, hav]
  · intro avail hav
    simp [Client.decodeTrackSelect, Client.decodeTracksSelect, hav]

/-- Witness for C3 at empty pools. -/
theorem C3_witness :
    (Client.getTracksSelect ⟨false, [], []⟩ false).1 =
        Except.error (PyErr.nodeException "No available nodes!") ∧
    (Client.getTracksSelect ⟨true, [], []⟩ false).1 =
        Except.error (PyErr.nodeException "No available nodes!") ∧
    Client.decodeTrackSelect [] =
        Except.error (PyErr.nodeException "No available nodes!") ∧
    Client.decodeTracksSelect [] =
        Except.error (PyErr.nodeException "No available nodes!") :=
  ⟨(C3_empty_pool_raises ⟨false, [], []⟩ false).1 rfl rfl,
   (C3_empty_pool_raises ⟨true, [], []⟩ false).2.1 rfl rfl rfl,
   ((C3_empty_pool_raises ⟨true, [], []⟩ false).2.2 [] rfl).1,
   ((C3_empty_pool_raises ⟨true, [], []⟩ false).2.2 [] rfl).2⟩

end PyLav

namespace PyLav

/-- Once the warned flag is set, pool selection keeps it set and never
emits the warning again, whatever the call. -/
theorem choosePool_snd_of_warned (c : GetTracksCall) :
    (Client.choosePool c true).2 = (true, false) := by
  unfold Client.choosePool
  split
  · split
    · rfl
    · rfl
  · rfl

/-- The flag/warning components of a `get_tracks` call agree with those of
its pool-selection block. -/
theorem getTracksSelect_snd (c : GetTracksCall) (warned : Bool) :
    (Client.getTracksSelect c warned).2 = (Client.choosePool c warned).2 := by
  cases h : (Client.choosePool c warned).1.isEmpty <;>
    simp [Client.getTracksSelect, h]

/-- From an unwarned client, one call either emits the warning and sets the
flag, or emits nothing and leaves the flag unset. -/
theorem getTracksSelect_snd_of_unwarned (c : GetTracksCall) :
    (Client.getTracksSelect c false).2 = (true, true) ∨
    (Client.getTracksSelect c false).2 = (false, false) := by
  rw [getTracksSelect_snd]
  unfold Client.choosePool
  split
  · split
    · exact Or.inl rfl
    · exact Or.inr rfl
  · exact Or.inr rfl

/-- A call sequence starting with the flag set emits no warning and keeps
the flag set. -/
theorem runGetTracksCalls_warned (calls : List GetTracksCall) :
    Client.runGetTracksCalls calls true = (0, true) := by
  induction calls with
  | nil => rfl
  | cons c rest ih =>
      have h2 : (Client.getTracksSelect c true).2 = (true, false) := by
        rw [getTracksSelect_snd]; exact choosePool_snd_of_warned c
      simp only [Client.runGetTracksCalls, h2, ih]
      simp

/-- A call sequence starting with the flag unset emits at most one
warning. -/
theorem runGetTracksCalls_unwarned (calls : List GetTracksCall) :
    (Client.runGetTracksCalls calls false).1 ≤ 1 := by
  induction calls with
  | nil => exact Nat.zero_le 1
  | cons c rest ih =>
      rcases getTracksSelect_snd_of_unwarned c with h | h
      · simp only [Client.runGetTracksCalls, h, runGetTracksCalls_warned rest]
        simp
      · simp only [Client.runGetTracksCalls, h]
        simpa using ih

/-- Claim C4: with search_only_nodes=True, an empty search-only pool and a
nonempty general pool, get_tracks falls back to the general available pool,
emitting the warning exactly when the client had not yet warned; once
warned the flag stays set, so an already-warned client never emits the
warning again, and a fresh client emits it at most once across any call
sequence. -/
theorem C4_search_fallback_warn_once (c : GetTracksCall) (warned : Bool)
    (hso : c.searchOnly = true) (hsearch : c.searchOnlyNodes = [])
    (hav : c.availableNodes ≠ []) :
    Client.getTracksSelect c warned = (Except.ok c.availableNodes, true, !warned) ∧
    (∀ calls : List GetTracksCall, (Client.runGetTracksCalls calls true).1 = 0) ∧
    (∀ calls : List GetTracksCall,
      (Client.runGetTracksCalls calls initialWarnedFlag).1 ≤ 1) := by
  refine ⟨?_, ?_, ?_⟩
  · simp [Client.getTracksSelect, Client.choosePool, hso, hsearch, hav]
  · intro calls
    rw [runGetTracksCalls_warned calls]
  · intro calls
    exact runGetTracksCalls_unwarned calls

/-- Witness for C4: a concrete fallback call from a fresh client emits the
warning and returns the general pool; repeats emit nothing more. -/
theorem C4_witness :
    Client.getTracksSelect ⟨true, [], [⟨"n1", true⟩]⟩ false =
      (Except.ok [⟨"n1", true⟩], true, true) ∧
    (Client.runGetTracksCalls
        [⟨true, [], [⟨"n1", true⟩]⟩, ⟨true, [], [⟨"n1", true⟩]⟩] true).1 = 0 ∧
    (Client.runGetTracksCalls
        [⟨true, [], [⟨"n1", true⟩]⟩, ⟨true, [], [⟨"n1", true⟩]⟩]
        initialWarnedFlag).1 ≤ 1 := by
  have h := C4_search_fallback_warn_once ⟨true, [], [⟨"n1", true⟩]⟩ false rfl rfl
    (by simp)
  exact ⟨h.1, h.2.1 _, h.2.2 _⟩

end PyLav

namespace PyLav

/-- Claim C5: create is idempotent for a guild already bound to the
requested channel — the registered player is returned, the registry is
unchanged, and no effect (in particular no voice connect and no
PlayerConnected event) is issued; when the requested channel differs, the
existing player (same identity, no new construction) is moved to the new
channel and returned, again with no connect and no PlayerConnected
event. -/
theorem C5_create_idempotent (players : Registry) (guild channel : Nat)
    (bestNode : Option NodeRef) (freshId : Nat) (p : PlayerSt)
    (hp : players.lookup guild = some p) :
    (p.channel_id = channel →
      PlayerManager.create players guild channel bestNode freshId =
        Except.ok (p, players, [])) ∧
    (p.channel_id ≠ channel →
      PlayerManager.create players guild channel bestNode freshId =
        Except.ok (p.moveTo channel, players.update guild (p.moveTo channel),
          [Effect.moveTo guild channel]) ∧
      (p.moveTo channel).id = p.id ∧
      (p.moveTo channel).guild_id = p.guild_id ∧
      (p.moveTo channel).channel_id = channel ∧
      Effect.voiceConnect guild ∉ [Effect.moveTo guild channel] ∧
      Effect.playerConnectedEvent guild ∉ [Effect.moveTo guild channel]) := by
  constructor
  · intro hc
    unfold PlayerManager.create
    rw [hp]
    simp [hc]
  · intro hc
    refine ⟨?_, rfl, rfl, rfl, by simp, by simp⟩
    unfold PlayerManager.create
    rw [hp]
    have : channel ≠ p.channel_id := fun h => hc h.symm
    simp [this]

/-- Witness for C5: one registry, a same-channel call and a
different-channel call. -/
theorem C5_witness :
    PlayerManager.create [(5, ⟨1, 5, 10, none⟩)] 5 10 none 99 =
      Except.ok (⟨1, 5, 10, none⟩, [(5, ⟨1, 5, 10, none⟩)], []) ∧
    PlayerManager.create [(5, ⟨1, 5, 10, none⟩)] 5 11 none 99 =
      Except.ok (PlayerSt.moveTo ⟨1, 5, 10, none⟩ 11,
        Registry.update [(5, ⟨1, 5, 10, none⟩)] 5 (PlayerSt.moveTo ⟨1, 5, 10, none⟩ 11),
        [Effect.moveTo 5 11]) ∧
    (PlayerSt.moveTo ⟨1, 5, 10, none⟩ 11).id = (⟨1, 5, 10, none⟩ : PlayerSt).id :=
  ⟨(C5_create_idempotent [(5, ⟨1, 5, 10, none⟩)] 5 10 none 99 ⟨1, 5, 10, none⟩ rfl).1 rfl,
   ((C5_create_idempotent [(5, ⟨1, 5, 10, none⟩)] 5 11 none 99 ⟨1, 5, 10, none⟩ rfl).2
      (by decide)).1,
   ((C5_create_idempotent [(5, ⟨1, 5, 10, none⟩)] 5 11 none 99 ⟨1, 5, 10, none⟩ rfl).2
      (by decide)).2.1⟩

/-- The awaited wrapped tasks settle to one outcome per hook and no
exception escapes the gather. -/
theorem foldr_hookWrapper (e : Ev) (l : List Hook) :
    List.foldr
        (fun (h : Hook) (acc : Except String (List (Option String))) => do
          let rest ← acc
          pure (hookWrapper h e :: rest))
        (Except.ok []) l =
      Except.ok (List.map (fun h => hookWrapper h e) l) := by
  induction l with
  | nil => rfl
  | cons h rest ih =>
      simp only [List.foldr_cons, ih, List.map_cons]
      rfl

/-- Claim C6: dispatching an event delivers it to every generic hook and
every hook registered for the event's concrete kind; each hook's failure
is caught (its settled outcome is `hookWrapper`'s, a logged message on
failure), so no failure prevents the other hooks' outcomes or escapes to
the publisher, and the dispatch completes with the settled outcome of every
hook invocation. -/
theorem C6_dispatch_isolates_hook_failures (hooks : String → List Hook) (e : Ev) :
    Client.dispatchEvent hooks e =
      Except.ok (List.map (fun h => hookWrapper h e)
        (hooks "Generic" ++ hooks e.kind)) := by
  unfold Client.dispatchEvent
  rcases hg : hooks "Generic" with _ | ⟨h1, rest1⟩
  · rcases ht : hooks e.kind with _ | ⟨h2, rest2⟩
    · rfl
    · simp only [hg, ht]
      rw [foldr_hookWrapper]
      rfl
  · simp only [hg]
    rw [foldr_hookWrapper]
    rfl

/-- Claim C7: for the four REST endpoints, 401/403 raise Unauthorized,
200 returns the parsed result (get_tracks with the default first=False
returns the whole parsed body), and every other status returns the empty
result — an empty list or None — raising nothing. -/
theorem C7_rest_status_handling (status : Nat) (b : LoadTracksBody)
    (s : String) (ts : List String) (r : String) :
    ((status = 401 ∨ status = 403) →
      (∀ first : Bool,
        Node.getTracksResp status b first = Except.error PyErr.unauthorized) ∧
      Node.decodeTrackResp status s = Except.error PyErr.unauthorized ∧
      Node.decodeTracksResp status ts = Except.error PyErr.unauthorized ∧
      Node.routeplannerStatusResp status r = Except.error PyErr.unauthorized) ∧
    (status = 200 →
      Node.getTracksResp status b false = Except.ok (GetTracksRet.result b) ∧
      Node.decodeTrackResp status s = Except.ok (some s) ∧
      Node.decodeTracksResp status ts = Except.ok ts ∧
      Node.routeplannerStatusResp status r = Except.ok (some r)) ∧
    (status ≠ 200 → status ≠ 401 → status ≠ 403 →
      (∀ first : Bool,
        Node.getTracksResp status b first = Except.ok GetTracksRet.emptyList) ∧
      Node.decodeTrackResp status s = Except.ok none ∧
      Node.decodeTracksResp status ts = Except.ok [] ∧
      Node.routeplannerStatusResp status r = Except.ok none) := by
  refine ⟨?_, ?_, ?_⟩
  · intro h
    have h200 : status ≠ 200 := by rcases h with h | h <;> omega
    refine ⟨fun first => ?_, ?_, ?_, ?_⟩ <;>
      simp [Node.getTracksResp, Node.decodeTrackResp, Node.decodeTracksResp,
        Node.routeplannerStatusResp, h200, h]
  · intro h
    refine ⟨?_, ?_, ?_, ?_⟩ <;>
      simp [Node.getTracksResp, Node.decodeTrackResp, Node.decodeTracksResp,
        Node.routeplannerStatusResp, h]
  · intro h200 h401 h403
    have hne : ¬(status = 401 ∨ status = 403) := by omega
    refine ⟨fun first => ?_, ?_, ?_, ?_⟩ <;>
      simp [Node.getTracksResp, Node.decodeTrackResp, Node.decodeTracksResp,
        Node.routeplannerStatusResp, h200, hne]

/-- Witness for C7 at statuses 401, 200 and 500. -/
theorem C7_witness :
    Node.getTracksResp 401 ⟨some ["t"], "lt"⟩ false = Except.error PyErr.unauthorized ∧
    Node.decodeTrackResp 200 "body" = Except.ok (some "body") ∧
    Node.decodeTracksResp 500 ["a"] = Except.ok [] ∧
    Node.routeplannerStatusResp 500 "rp" = Except.ok none :=
  ⟨((C7_rest_status_handling 401 ⟨some ["t"], "lt"⟩ "body" ["a"] "rp").1
      (Or.inl rfl)).1 false,
   ((C7_rest_status_handling 200 ⟨some ["t"], "lt"⟩ "body" ["a"] "rp").2.1 rfl).2.1,
   ((C7_rest_status_handling 500 ⟨some ["t"], "lt"⟩ "body" ["a"] "rp").2.2
      (by decide) (by decide) (by decide)).2.2.1,
   ((C7_rest_status_handling 500 ⟨some ["t"], "lt"⟩ "body" ["a"] "rp").2.2
      (by decide) (by decide) (by decide)).2.2.2⟩

end PyLav

namespace PyLav

/-- When every allowed connect attempt fails, the loop makes exactly the
allowed number of attempts, ends terminally disconnected, and emits the
NodeDisconnected event; attempts beyond the cap are never consulted. -/
theorem reconnectRun_all_fail (remaining : Nat) :
    ∀ (tries : Nat) (f : Nat → Bool),
      (∀ i, tries ≤ i → i < tries + remaining → f i = false) →
      reconnectRun f tries remaining =
        (tries + remaining, SessionState.disconnectedTerminal,
          [SessionEvent.nodeDisconnected]) := by
  induction remaining with
  | zero => intro tries f _; rfl
  | succ m ih =>
      intro tries f hf
      have h0 : f tries = false := hf tries (Nat.le_refl tries) (by omega)
      have step : reconnectRun f tries (m + 1) =
          if f tries = true then
            (tries + 1, SessionState.connected, [SessionEvent.nodeConnected])
          else reconnectRun f (tries + 1) m := rfl
      rw [step, h0]
      simp only [Bool.false_eq_true, if_false]
      rw [ih (tries + 1) f (fun i h1 h2 => hf i (by omega) (by omega))]
      have harith : tries + 1 + m = tries + (m + 1) := by omega
      rw [harith]

/-- Claim C8: with reconnect_attempts = 3 (the `Node.__init__` default) and
a session whose connect attempts before the cap all fail, exactly 3
attempts are made before the loop ends in the terminal Disconnected state
emitting NodeDisconnected; the connect function is arbitrary from the 4th
attempt on, so a 4th attempt is never made; and in general exhausting any
configured cap yields the cap's worth of attempts, the terminal state and
the node-failure event. -/
theorem C8_reconnect_attempt_cap (f : Nat → Bool)
    (h3 : ∀ i, i < defaultReconnectAttempts → f i = false) :
    reconnectRun f 0 defaultReconnectAttempts =
      (3, SessionState.disconnectedTerminal, [SessionEvent.nodeDisconnected]) ∧
    (∀ (cap : Nat) (g : Nat → Bool), (∀ i, i < cap → g i = false) →
      reconnectRun g 0 cap =
        (cap, SessionState.disconnectedTerminal,
          [SessionEvent.nodeDisconnected])) := by
  constructor
  · have := reconnectRun_all_fail defaultReconnectAttempts 0 f
      (fun i _ h2 => h3 i (by omega))
    simpa using this
  · intro cap g hg
    have := reconnectRun_all_fail cap 0 g (fun i _ h2 => hg i (by omega))
    simpa using this

/-- Witness for C8: a connect that always fails makes exactly 3 attempts. -/
theorem C8_witness :
    reconnectRun (fun _ => false) 0 defaultReconnectAttempts =
      (3, SessionState.disconnectedTerminal, [SessionEvent.nodeDisconnected]) ∧
    reconnectRun (fun _ => false) 0 5 =
      (5, SessionState.disconnectedTerminal, [SessionEvent.nodeDisconnected]) :=
  ⟨(C8_reconnect_attempt_cap (fun _ => false) (fun _ _ => rfl)).1,
   (C8_reconnect_attempt_cap (fun _ => false) (fun _ _ => rfl)).2 5
     (fun _ => false) (fun _ _ => rfl)⟩

/-- Claim C9: Node.get_tracks with first=True is not total over empty
track lists — a 200 response whose parsed "tracks" list is empty makes
the unguarded index expression raise IndexError, instead of the empty
result; the same response with first=False succeeds. -/
theorem C9_first_track_index_error :
    Node.getTracksResp 200 ⟨some [], "loadType"⟩ true =
      Except.error PyErr.indexError ∧
    Node.getTracksResp 200 ⟨none, "loadType"⟩ true =
      Except.error PyErr.indexError ∧
    Node.getTracksResp 200 ⟨some [], "loadType"⟩ false =
      Except.ok (GetTracksRet.result ⟨some [], "loadType"⟩) := by
  refine ⟨?_, ?_, ?_⟩ <;> rfl

/-- Looking up a guild after its entry is popped finds nothing. -/
theorem lookup_remove_none (ps : Registry) (g : Nat) :
    Registry.lookup (Registry.remove ps g) g = none := by
  unfold Registry.lookup Registry.remove
  induction ps with
  | nil => rfl
  | cons x rest ih =>
      rw [List.filter_cons]
      by_cases h : x.1 = g <;> simp [h, List.find?_cons, ih]

/-- Claim C10: destroy for an existing player whose bound node is None pops
the player from the registry first and then raises AttributeError on the
log line's `player.node.name` — the registry mutation survives the
exception; for an absent guild_id destroy returns without raising and
leaves the registry unchanged. -/
theorem C10_destroy_not_atomic (players : Registry) (guild : Nat) (p : PlayerSt) :
    (players.lookup guild = some p → p.node = none →
      PlayerManager.destroy players guild =
        (players.remove guild, Except.error PyErr.attributeError) ∧
      (players.remove guild).lookup guild = none) ∧
    (players.lookup guild = none →
      PlayerManager.destroy players guild = (players, Except.ok [])) := by
  constructor
  · intro hp hn
    constructor
    · simp [PlayerManager.destroy, hp, hn]
    · exact lookup_remove_none players guild
  · intro hp
    simp [PlayerManager.destroy, hp]

/-- Witness for C10: a one-player registry whose player has no node, and an
empty registry. -/
theorem C10_witness :
    PlayerManager.destroy [(7, ⟨1, 7, 2, none⟩)] 7 =
      (Registry.remove [(7, ⟨1, 7, 2, none⟩)] 7, Except.error PyErr.attributeError) ∧
    PlayerManager.destroy [] 7 = ([], Except.ok []) :=
  ⟨((C10_destroy_not_atomic [(7, ⟨1, 7, 2, none⟩)] 7 ⟨1, 7, 2, none⟩).1 rfl rfl).1,
   (C10_destroy_not_atomic [] 7 ⟨1, 7, 2, none⟩).2 rfl⟩

end PyLav
